import Mathlib

/-!
Verification development for the rate-limiting LLM gate
(`src/backend/src/agent/configuration.py`).

The Python module defines:
* `Configuration` — a pydantic settings class with sixteen fields and a
  `from_runnable_config` classmethod resolving each field from the
  environment, a `configurable` mapping, or the declared default;
* `DelayedLLM` — a wrapper around either `ChatLiteLLM` (OpenRouter) or
  `ChatGoogleGenerativeAI` (Gemini) that sleeps before each call so that
  consecutive calls are at least `delay_seconds` apart, tracking the shared
  mutable field `_last_call_time` (initialized to `0.0`).

The embedding below models wall-clock instants (`time.time()` values) and
durations as rationals: the Python code computes with floats, but every
claim here concerns the timing logic, not float rounding, so we use the
idealized exact arithmetic.  Each `def` is translated line by line from the
source; event traces record exactly the observable actions the code
performs, in program order.
-/

/-- Python runtime values appearing in parameter dictionaries.  `pynone`
models the Python value `None` (which is distinct from a key being absent
from a dict). -/
inductive PyVal where
  | s (v : String)
  | i (n : Int)
  | b (v : Bool)
  | q (v : ℚ)
  | pynone
  deriving DecidableEq

/-- A Python `dict[str, Any]`: `none` means the key is absent, while
`some PyVal.pynone` means the key is present and bound to `None`. -/
def PyDict : Type := String → Option PyVal

/-- The process environment as seen by `os.getenv` / `os.environ.get`:
environment values are always strings; `none` means the variable is unset. -/
def OsEnv : Type := String → Option String

/-- The empty keyword-argument dictionary. -/
def pyDictEmpty : PyDict := fun _ => none

/-- An environment with no variables set. -/
def osEnvEmpty : OsEnv := fun _ => none

/-- Value of `os.getenv(name)` used as a dict entry: a set variable contributes its
string, an unset one contributes Python `None` (the call returns `None`,
which is then stored in the constructed kwargs dict). -/
def envVal (env : OsEnv) (name : String) : PyVal :=
  match env name with
  | some s => PyVal.s s
  | none => PyVal.pynone

/-- Lines 158-161: the dict comprehension building `filtered_kwargs`,
which drops the two gate-specific keys `delay_seconds` and
`use_openrouter` and keeps every other entry. -/
def filteredKwargs (kwargs : PyDict) : PyDict :=
  fun k =>
    if k = "delay_seconds" ∨ k = "use_openrouter" then none else kwargs k

/-- The backend client handle produced by `DelayedLLM.__init__`: either a
`ChatLiteLLM` (OpenRouter path) or a `ChatGoogleGenerativeAI` (direct
Gemini path), each remembering the keyword arguments its constructor
received. -/
inductive ClientSpec where
  | chatLiteLLM (params : PyDict)
  | chatGoogleGenerativeAI (params : PyDict)

/-- The keyword arguments the backend constructor received. -/
def ClientSpec.params : ClientSpec → PyDict
  | .chatLiteLLM p => p
  | .chatGoogleGenerativeAI p => p

/-- Whether the produced client is the LiteLLM (OpenRouter) one. -/
def ClientSpec.isLite : ClientSpec → Bool
  | .chatLiteLLM _ => true
  | .chatGoogleGenerativeAI _ => false

/-- The state produced by `DelayedLLM.__init__` (lines 144-178): the three
instance attributes set on `self`, plus the constructed backend client. -/
structure DelayedLLMState where
  delaySeconds : ℚ
  lastCallTime : ℚ
  useOpenrouter : Bool
  llm : ClientSpec

/-- Constructor `DelayedLLM.__init__(delay_seconds, use_openrouter, **kwargs)` (lines
144-178), with the ambient environment passed explicitly.  Sets
`_delay_seconds`, `_last_call_time = 0.0`, `_use_openrouter`; filters the
two gate-specific keys out of `kwargs`; then builds the backend client:
on the OpenRouter path the filtered kwargs are merged (dict-literal
override) with the fixed `base_url`, the fixed `custom_llm_provider`
tag, and `api_key = os.getenv("OPEN_ROUTER_API_KEY")`; on the Gemini path
only `api_key = os.getenv("GEMINI_API_KEY")` is merged in. -/
def DelayedLLM.init (delay_seconds : ℚ) (use_openrouter : Bool)
    (kwargs : PyDict) (env : OsEnv) : DelayedLLMState :=
  let filtered := filteredKwargs kwargs
  if use_openrouter then
    let openrouterKwargs : PyDict := fun k =>
      if k = "base_url" then some (PyVal.s "https://openrouter.ai/api/v1")
      else if k = "custom_llm_provider" then some (PyVal.s "openrouter")
      else if k = "api_key" then some (envVal env "OPEN_ROUTER_API_KEY")
      else filtered k
    { delaySeconds := delay_seconds, lastCallTime := 0,
      useOpenrouter := use_openrouter,
      llm := ClientSpec.chatLiteLLM openrouterKwargs }
  else
    let geminiKwargs : PyDict := fun k =>
      if k = "api_key" then some (envVal env "GEMINI_API_KEY")
      else filtered k
    { delaySeconds := delay_seconds, lastCallTime := 0,
      useOpenrouter := use_openrouter,
      llm := ClientSpec.chatGoogleGenerativeAI geminiKwargs }

/-- Whether a wait blocks the thread (`time.sleep`) or suspends the task
(`await asyncio.sleep`). -/
inductive WaitKind where
  | block
  | suspend
  deriving DecidableEq

/-- Whether the backend is reached through `llm.invoke` or `llm.ainvoke`. -/
inductive CallKind where
  | sync
  | async
  deriving DecidableEq

/-- Observable events of one `invoke`/`ainvoke` execution, in program
order.  Times are the idealized `time.time()` readings. -/
inductive GateEv where
  | readClock (t : ℚ)
  | wait (k : WaitKind) (dur : ℚ)
  | writeLast (v : ℚ)
  | callBackend (k : CallKind) (t : ℚ)
  | backendDone (t : ℚ)
  | cancel
  deriving DecidableEq

/-- Is this event a `writeLast`? -/
def GateEv.isWriteLast : GateEv → Bool
  | .writeLast _ => true
  | _ => false

/-- Is this event a backend dispatch? -/
def GateEv.isCallBackend : GateEv → Bool
  | .callBackend _ _ => true
  | _ => false

/-- Is this event a wait (sleep)? -/
def GateEv.isWait : GateEv → Bool
  | .wait _ _ => true
  | _ => false

/-- Is this event the completion of the backend call? -/
def GateEv.isBackendDone : GateEv → Bool
  | .backendDone _ => true
  | _ => false

/-- Result of one blocking `invoke` (lines 180-192): the event trace and
the value of `_last_call_time` after the call. -/
structure SyncCall where
  trace : List GateEv
  newLast : ℚ
  deriving DecidableEq

/-- Method `DelayedLLM.invoke` (lines 180-192), for a call entered at clock `t0`
against stored timestamp `last`, whose backend attempt takes `dur`:
read the clock, compute `time_since_last_call = t0 - last`; if it is below
`d` sleep `d - time_since_last_call`; then write
`_last_call_time = time.time()` (the post-sleep instant) and only then
dispatch `self.llm.invoke`. -/
def DelayedLLM.invokeM (d last t0 dur : ℚ) : SyncCall :=
  let elapsed := t0 - last
  if elapsed < d then
    let sleepTime := d - elapsed
    let dispatchAt := t0 + sleepTime
    { trace := [GateEv.readClock t0, GateEv.wait WaitKind.block sleepTime,
        GateEv.writeLast dispatchAt, GateEv.callBackend CallKind.sync dispatchAt,
        GateEv.backendDone (dispatchAt + dur)],
      newLast := dispatchAt }
  else
    { trace := [GateEv.readClock t0, GateEv.writeLast t0,
        GateEv.callBackend CallKind.sync t0, GateEv.backendDone (t0 + dur)],
      newLast := t0 }

/-- Result of one suspending `ainvoke` (lines 194-208): the event trace,
the value of `_last_call_time` after the call, and whether the call was
cancelled before dispatch. -/
structure AsyncCall where
  trace : List GateEv
  newLast : ℚ
  cancelled : Bool
  deriving DecidableEq

/-- Method `DelayedLLM.ainvoke` (lines 194-208): the same computation as
`invoke`, except the wait is `await asyncio.sleep` and the backend call is
`await self.llm.ainvoke`.  `cancelDuringWait` models the task being
cancelled while suspended in the sleep: `CancelledError` is raised at the
`await`, so lines 207-208 never run — no timestamp write, no dispatch.
When no wait is needed there is no pre-dispatch suspension point, so the
flag has no effect. -/
def DelayedLLM.ainvokeM (d last t0 dur : ℚ) (cancelDuringWait : Bool) :
    AsyncCall :=
  let elapsed := t0 - last
  if elapsed < d then
    let sleepTime := d - elapsed
    if cancelDuringWait then
      { trace := [GateEv.readClock t0, GateEv.cancel],
        newLast := last, cancelled := true }
    else
      let dispatchAt := t0 + sleepTime
      { trace := [GateEv.readClock t0, GateEv.wait WaitKind.suspend sleepTime,
          GateEv.writeLast dispatchAt,
          GateEv.callBackend CallKind.async dispatchAt,
          GateEv.backendDone (dispatchAt + dur)],
        newLast := dispatchAt, cancelled := false }
  else
    { trace := [GateEv.readClock t0, GateEv.writeLast t0,
        GateEv.callBackend CallKind.async t0, GateEv.backendDone (t0 + dur)],
      newLast := t0, cancelled := false }

/-- Sequential driver: run `invoke` once per `(issueTime, duration)` pair,
threading `_last_call_time` through; each call contributes its
`(dispatchStart, backendReturn)` instants. -/
def DelayedLLM.invokeRun (d : ℚ) : ℚ → List (ℚ × ℚ) → List (ℚ × ℚ)
  | _, [] => []
  | last, (t0, dur) :: rest =>
    let c := DelayedLLM.invokeM d last t0 dur
    (c.newLast, c.newLast + dur) :: DelayedLLM.invokeRun d c.newLast rest

/-!
Interleaved execution of several concurrent `ainvoke` calls on one gate.

`ainvoke` has exactly one suspension point before dispatch (the
`await asyncio.sleep`).  Under the asyncio scheduler a task runs without
preemption between awaits, so each call decomposes into at most two atomic
segments operating on the shared `_last_call_time`:

* `compute` — lines 198-205: read the clock and `_last_call_time`; if the
  elapsed time is below `d`, start sleeping until the computed wake
  instant and yield; otherwise fall through to lines 207-208 in the same
  scheduling slice: write `_last_call_time` and dispatch ;
* `wake` — resuming after the sleep, at or after the wake instant:
  lines 207-208, write `_last_call_time` and dispatch.

A schedule is a list of `(action, clockTime)` pairs with nondecreasing
clock times; invalid actions (waking a task that is not sleeping, running
a task twice, waking before the sleep expires) make the run fail.
-/

/-- Where one concurrent `ainvoke` task currently stands. -/
inductive GatePhase where
  | ready
  | sleeping (wakeAt : ℚ)
  | finished
  deriving DecidableEq

/-- Shared state of one gate plus three concurrent caller tasks:
`last` is `_last_call_time`, `dispatches` records the backend dispatch
instants in the order they occur. -/
structure GateSys where
  last : ℚ
  ph : Fin 3 → GatePhase
  dispatches : List ℚ

/-- Replace the phase of task `i`. -/
def GateSys.setPh (s : GateSys) (i : Fin 3) (p : GatePhase) : GateSys :=
  { s with ph := fun j => if j = i then p else s.ph j }

/-- A fresh gate (sentinel timestamp `0.0`) with all three callers about
to enter `ainvoke`. -/
def gateSysInit : GateSys :=
  { last := 0, ph := fun _ => GatePhase.ready, dispatches := [] }

/-- Scheduler actions: run the read-compute segment of task `i`, or
resume task `i` from its sleep. -/
inductive GateAct where
  | compute (i : Fin 3)
  | wake (i : Fin 3)

/-- One scheduler step at clock time `t`, following `ainvoke` line by
line.  `compute i`: with `elapsed = t - last`, either start sleeping until
`t + (d - elapsed)` (lines 201-205) or, when no wait is needed, write the
timestamp and dispatch in the same atomic slice (lines 207-208).
`wake i`: the sleep has expired (`wakeAt ≤ t`); write the timestamp and
dispatch (lines 207-208). -/
def gateStep (d : ℚ) (s : GateSys) : GateAct → ℚ → Option GateSys
  | GateAct.compute i, t =>
    match s.ph i with
    | GatePhase.ready =>
      if t - s.last < d then
        some (s.setPh i (GatePhase.sleeping (t + (d - (t - s.last)))))
      else
        some { s.setPh i GatePhase.finished with
                 last := t, dispatches := s.dispatches ++ [t] }
    | _ => none
  | GateAct.wake i, t =>
    match s.ph i with
    | GatePhase.sleeping w =>
      if w ≤ t then
        some { s.setPh i GatePhase.finished with
                 last := t, dispatches := s.dispatches ++ [t] }
      else none
    | _ => none

/-- Run a schedule: fold `gateStep` over `(action, clockTime)` pairs,
rejecting schedules whose clock times decrease. -/
def gateRun (d : ℚ) : ℚ → GateSys → List (GateAct × ℚ) → Option GateSys
  | _, s, [] => some s
  | prev, s, (a, t) :: rest =>
    if prev ≤ t then
      match gateStep d s a t with
      | some s' => gateRun d t s' rest
      | none => none
    else none

/-- The dispatch-spacing property the spec asserts: successive backend
dispatch instants (listed chronologically) are at least `d` apart. -/
def dispatchesSpaced (d : ℚ) (l : List ℚ) : Prop :=
  List.Pairwise (fun a b => a + d ≤ b) l

instance (d : ℚ) (l : List ℚ) : Decidable (dispatchesSpaced d l) := by
  unfold dispatchesSpaced
  infer_instance

/-- A schedule in which three concurrent callers hit a fresh gate with
`d = 2`: caller 0 computes at `t = 100` and dispatches at once; callers 1
and 2 both run their read-compute step (at `t = 100.5` and `t = 100.6`)
before either has committed a timestamp, so both compute the same wake
instant `102`; both then dispatch at `t = 102`. -/
def gateRaceSchedule : List (GateAct × ℚ) :=
  [(GateAct.compute 0, 100), (GateAct.compute 1, 201 / 2),
   (GateAct.compute 2, 503 / 5), (GateAct.wake 1, 102),
   (GateAct.wake 2, 102)]

/-- Claim-side predicate: before the backend attempt completes, the
stored timestamp is never written ("written only after the underlying
call attempt has completed"). -/
def noWriteBeforeCompletion (tr : List GateEv) : Bool :=
  (tr.takeWhile fun e => !e.isBackendDone).all fun e => !e.isWriteLast

/-- Claim-side predicate: before the backend call begins, the stored
timestamp is never written ("never before the underlying call begins"). -/
def noWriteBeforeDispatch (tr : List GateEv) : Bool :=
  (tr.takeWhile fun e => !e.isCallBackend).all fun e => !e.isWriteLast

/-- Does the trace contain a timestamp write immediately followed by a
backend dispatch carrying the same instant? -/
def hasWriteThenCall : List GateEv → Bool
  | [] => false
  | e :: rest =>
    (match e, rest.head? with
     | GateEv.writeLast v, some (GateEv.callBackend _ t) => decide (v = t)
     | _, _ => false) || hasWriteThenCall rest

/-- Rename the blocking flavor of each event to the suspending one: a
thread-blocking sleep becomes a task-suspending sleep, and a call through
`llm.invoke` becomes a call through `llm.ainvoke`.  All other event data
(instants, durations, written timestamps) is untouched. -/
def toAsyncEv : GateEv → GateEv
  | GateEv.wait WaitKind.block w => GateEv.wait WaitKind.suspend w
  | GateEv.callBackend CallKind.sync t => GateEv.callBackend CallKind.async t
  | e => e

/-- The keys `DelayedLLM.__init__` itself injects into the backend
constructor kwargs, per provider path (dict-literal override). -/
def injectedKeys (use_openrouter : Bool) : List String :=
  if use_openrouter then ["base_url", "custom_llm_provider", "api_key"]
  else ["api_key"]

/-- Spec-side dict update: `specDictInsert m k v` is `m` with `k` bound
to `v` (later entries of a Python dict literal override earlier ones). -/
def specDictInsert (m : PyDict) (key : String) (v : PyVal) : PyDict :=
  fun k => if k = key then some v else m k

/-- Spec-side description of the primary-backend parameters: "merge in a
fixed base-URL, a fixed provider tag, and a credential pulled from a named
environment variable" on top of the filtered bag. -/
def primaryParamsSpec (kwargs : PyDict) (env : OsEnv) : PyDict :=
  specDictInsert
    (specDictInsert
      (specDictInsert (filteredKwargs kwargs)
        "base_url" (PyVal.s "https://openrouter.ai/api/v1"))
      "custom_llm_provider" (PyVal.s "openrouter"))
    "api_key" (envVal env "OPEN_ROUTER_API_KEY")

/-- Spec-side description of the alternate-backend parameters: "the
filtered parameters (no base-URL/provider-tag injection)" plus the
credential from the alternate environment variable. -/
def alternateParamsSpec (kwargs : PyDict) (env : OsEnv) : PyDict :=
  specDictInsert (filteredKwargs kwargs) "api_key" (envVal env "GEMINI_API_KEY")

/-!  The `Configuration` pydantic class (lines 11-133). -/

/-- The sixteen field names of `Configuration`, in declaration order
(`cls.model_fields.keys()`). -/
def Configuration.fieldNames : List String :=
  ["coordinator_model", "specialist_model", "document_model",
   "analysis_model", "use_openrouter", "openrouter_base_url",
   "max_conversation_length", "max_concurrent_agents",
   "project_creation_timeout_minutes", "thursday_reminder_hour",
   "max_document_length", "json_data_directory",
   "coordinator_temperature", "document_temperature",
   "analysis_temperature", "api_call_delay_seconds"]

/-- The declared default of each `Configuration` field (lines 15-113). -/
def Configuration.defaults : String → Option PyVal := fun k =>
  if k = "coordinator_model" then some (PyVal.s "google/gemini-2.5-flash-lite")
  else if k = "specialist_model" then some (PyVal.s "google/gemini-2.5-flash-lite")
  else if k = "document_model" then some (PyVal.s "google/gemini-2.5-flash")
  else if k = "analysis_model" then some (PyVal.s "google/gemini-2.5-flash-lite")
  else if k = "use_openrouter" then some (PyVal.b true)
  else if k = "openrouter_base_url" then some (PyVal.s "https://openrouter.ai/api/v1")
  else if k = "max_conversation_length" then some (PyVal.i 50)
  else if k = "max_concurrent_agents" then some (PyVal.i 15)
  else if k = "project_creation_timeout_minutes" then some (PyVal.i 10)
  else if k = "thursday_reminder_hour" then some (PyVal.i 14)
  else if k = "max_document_length" then some (PyVal.i 10000)
  else if k = "json_data_directory" then some (PyVal.s "./json_data")
  else if k = "coordinator_temperature" then some (PyVal.q (1 / 10))
  else if k = "document_temperature" then some (PyVal.q (3 / 10))
  else if k = "analysis_temperature" then some (PyVal.q (1 / 5))
  else if k = "api_call_delay_seconds" then some (PyVal.i 120)
  else none

/-- Python `name.upper()` for the ASCII field names: uppercase every character.
(Executable replacement for the library uppercase function, which does not
reduce in the kernel.) -/
def pyUpper (s : String) : String := ⟨s.data.map Char.toUpper⟩

/-- The `configurable` mapping extracted from an optional
`RunnableConfig`: `config["configurable"] if config and "configurable" in
config else {}` (lines 120-122).  `none` covers both a missing config and
a config without the key. -/
def configurableOf : Option PyDict → PyDict
  | some c => c
  | none => fun _ => none

/-- Classmethod `Configuration.from_runnable_config` (lines 115-133) as the mapping
from field name to the value held by the constructed instance: for each
declared field, take `os.environ.get(NAME.upper(), configurable.get(name))`;
entries that come out as Python `None` are dropped, so pydantic fills in
the declared default.  (The pydantic string-to-target-type coercion of
environment values is outside the model: the resolved raw value itself is
returned.)  Names that are not fields resolve to nothing. -/
def Configuration.from_runnable_config (env : OsEnv)
    (config : Option PyDict) : String → Option PyVal :=
  fun name =>
    if name ∈ Configuration.fieldNames then
      match env (pyUpper name) with
      | some s => some (PyVal.s s)
      | none =>
        match configurableOf config name with
        | some PyVal.pynone => Configuration.defaults name
        | some v => some v
        | none => Configuration.defaults name
    else none

/-!  Concrete fixtures used by counterexamples and witnesses. -/

/-- A parameter bag holding a user-supplied `api_key` and a model name. -/
def kwargsUser : PyDict := fun k =>
  if k = "api_key" then some (PyVal.s "user-key")
  else if k = "model" then some (PyVal.s "gemini-2.5-flash")
  else none

/-- An environment defining only the coordinator-model override. -/
def envCoordinator : OsEnv := fun k =>
  if k = "COORDINATOR_MODEL" then some "override/model" else none

/-- A `configurable` mapping giving `specialist_model` a value and binding
`document_model` to Python `None`. -/
def configurableFix : PyDict := fun k =>
  if k = "specialist_model" then some (PyVal.s "cfg/model")
  else if k = "document_model" then some PyVal.pynone
  else none

/-!  Theorems. -/

/-- Helper: one `invoke` always dispatches (and therefore stores a new
timestamp) at least `d` after the stored timestamp it read: in the wait
branch the dispatch instant is exactly `last + d`, in the other branch the
entry instant itself is at least `last + d`. -/
theorem invokeM_newLast_lower (d last t0 dur : ℚ) :
    last + d ≤ (DelayedLLM.invokeM d last t0 dur).newLast := by
  unfold DelayedLLM.invokeM
  by_cases h : t0 - last < d
  · simp only [if_pos h]
    linarith
  · simp only [if_neg h]
    linarith

/-- C1 counterexample.  The claim demands that the gap between the END of
the backend attempt of call k and the start of the dispatch of call k+1 be at least
`d`, and in the concrete scenario (`d = 2`, call A entering at clock 100
and taking `0.1`, call B issued at `100.5`) that B not dispatch before
`102.1`.  The code stores the timestamp at dispatch START, so B dispatches
at `102`: the end-to-start gap is `1.9 < 2` and B fires `0.1` earlier than
the claim allows. -/
theorem C1_gap_counterexample :
    DelayedLLM.invokeRun 2 0 [(100, 1 / 10), (201 / 2, 0)]
      = [(100, 1001 / 10), (102, 102)] ∧
    (102 : ℚ) - 1001 / 10 < 2 ∧ (102 : ℚ) < 1001 / 10 + 2 := by
  norm_num [DelayedLLM.invokeRun, DelayedLLM.invokeM]

/-- C1 (amended): for every sequence of sequential calls through one gate
with interval `d`, consecutive backend dispatch STARTS are at least `d`
apart (the stored timestamp marks the start of the previous dispatch, not
its completion). -/
theorem C1_dispatch_starts_spaced (d last : ℚ) (calls : List (ℚ × ℚ)) :
    List.Chain' (fun a b => a.1 + d ≤ b.1)
      (DelayedLLM.invokeRun d last calls) := by
  induction calls generalizing last with
  | nil => simp [DelayedLLM.invokeRun]
  | cons c rest ih =>
    obtain ⟨t0, dur⟩ := c
    simp only [DelayedLLM.invokeRun]
    refine List.chain'_cons'.2 ⟨?_, ih _⟩
    intro y hy
    cases rest with
    | nil => simp [DelayedLLM.invokeRun] at hy
    | cons c2 rest2 =>
      obtain ⟨t2, dur2⟩ := c2
      simp only [DelayedLLM.invokeRun, List.head?_cons, Option.mem_def,
        Option.some.injEq] at hy
      subst hy
      exact invokeM_newLast_lower d _ t2 dur2

/-- C9: `ainvoke` runs the identical algorithm to `invoke` on the same
gate state: the traces agree event for event once the blocking wait is
renamed to the suspending wait and the blocking backend operation to the
suspending one, and both commit the same new timestamp. -/
theorem C9_ainvoke_matches_invoke (d last t0 dur : ℚ) :
    (DelayedLLM.ainvokeM d last t0 dur false).trace
      = (DelayedLLM.invokeM d last t0 dur).trace.map toAsyncEv ∧
    (DelayedLLM.ainvokeM d last t0 dur false).newLast
      = (DelayedLLM.invokeM d last t0 dur).newLast ∧
    (DelayedLLM.ainvokeM d last t0 dur false).cancelled = false := by
  unfold DelayedLLM.invokeM DelayedLLM.ainvokeM
  by_cases h : t0 - last < d <;> simp [h, toAsyncEv]

/-- C3 counterexample.  At the concrete call (`d = 2`, fresh-gate
timestamp 0, clock 100, backend duration `0.1`), the claim "the stored
timestamp is written only after the call attempt has completed, never
before the underlying call begins" fails on both of its halves: the trace
writes the timestamp before the backend completion event and before the
dispatch event. -/
theorem C3_write_before_dispatch_counterexample :
    noWriteBeforeCompletion (DelayedLLM.invokeM 2 0 100 (1 / 10)).trace
      = false ∧
    noWriteBeforeDispatch (DelayedLLM.invokeM 2 0 100 (1 / 10)).trace
      = false := by
  norm_num [noWriteBeforeCompletion, noWriteBeforeDispatch,
    DelayedLLM.invokeM, GateEv.isBackendDone, GateEv.isWriteLast,
    GateEv.isCallBackend]

/-- C3 (amended): on both paths the stored timestamp is written
immediately BEFORE the backend call begins, carrying the dispatch-start
instant (so it is in place regardless of whether the call later succeeds
or fails); the written value is exactly the new stored timestamp. -/
theorem C3_timestamp_at_dispatch (d last t0 dur : ℚ) :
    hasWriteThenCall (DelayedLLM.invokeM d last t0 dur).trace = true ∧
    hasWriteThenCall (DelayedLLM.ainvokeM d last t0 dur false).trace = true ∧
    GateEv.writeLast (DelayedLLM.invokeM d last t0 dur).newLast
      ∈ (DelayedLLM.invokeM d last t0 dur).trace := by
  unfold DelayedLLM.invokeM DelayedLLM.ainvokeM
  by_cases h : t0 - last < d <;> simp [h, hasWriteThenCall]

/-- C4 counterexample.  The sentinel is `0.0`, not negative infinity: on a
freshly constructed gate the elapsed time seen by the first call equals
the absolute clock reading, so with `delay_seconds` exceeding the clock
(here `d = 1760000001` against clock `1760000000`) the first call DOES
wait, refuting "the first call never waits regardless of `d`". -/
theorem C4_first_call_waits_counterexample :
    (DelayedLLM.init 1760000001 true pyDictEmpty osEnvEmpty).lastCallTime
      = 0 ∧
    ((DelayedLLM.invokeM
        (DelayedLLM.init 1760000001 true pyDictEmpty osEnvEmpty).delaySeconds
        (DelayedLLM.init 1760000001 true pyDictEmpty osEnvEmpty).lastCallTime
        1760000000 1).trace.all fun e => !e.isWait) = false := by
  norm_num [DelayedLLM.init, DelayedLLM.invokeM, GateEv.isWait]

/-- C4 (amended): the first call on a freshly constructed gate never
waits PROVIDED the interval does not exceed the clock reading at the
call (`d ≤ t0`); the sentinel is `0.0`, so the elapsed time on the first
call is the absolute clock reading `t0`, which is finite. -/
theorem C4_first_call_free_bounded (d t0 dur : ℚ) (flag c : Bool)
    (kwargs : PyDict) (env : OsEnv) (h : d ≤ t0) :
    ((DelayedLLM.invokeM (DelayedLLM.init d flag kwargs env).delaySeconds
        (DelayedLLM.init d flag kwargs env).lastCallTime t0 dur).trace.all
        fun e => !e.isWait) = true ∧
    ((DelayedLLM.ainvokeM (DelayedLLM.init d flag kwargs env).delaySeconds
        (DelayedLLM.init d flag kwargs env).lastCallTime t0 dur c).trace.all
        fun e => !e.isWait) = true := by
  have h1 : (DelayedLLM.init d flag kwargs env).delaySeconds = d := by
    cases flag <;> simp [DelayedLLM.init]
  have h2 : (DelayedLLM.init d flag kwargs env).lastCallTime = 0 := by
    cases flag <;> simp [DelayedLLM.init]
  rw [h1, h2]
  have hnot : ¬ t0 < d := not_lt.2 h
  unfold DelayedLLM.invokeM DelayedLLM.ainvokeM
  simp [hnot, GateEv.isWait]

/-- Witness for the amended C4 at `d = 2`, clock `1760000000`. -/
theorem C4_first_call_free_bounded_witness :
    ((DelayedLLM.invokeM
        (DelayedLLM.init 2 true pyDictEmpty osEnvEmpty).delaySeconds
        (DelayedLLM.init 2 true pyDictEmpty osEnvEmpty).lastCallTime
        1760000000 1).trace.all fun e => !e.isWait) = true ∧
    ((DelayedLLM.ainvokeM
        (DelayedLLM.init 2 true pyDictEmpty osEnvEmpty).delaySeconds
        (DelayedLLM.init 2 true pyDictEmpty osEnvEmpty).lastCallTime
        1760000000 1 true).trace.all fun e => !e.isWait) = true :=
  C4_first_call_free_bounded 2 1760000000 1 true true pyDictEmpty osEnvEmpty
    (by norm_num)

/-- C6: a suspending call cancelled while suspended in its pre-dispatch
wait (possible exactly when a wait is needed, `t0 - last < d`) leaves the
stored timestamp unmodified, never reaches the backend, and surfaces as a
cancellation. -/
theorem C6_cancellation_before_dispatch (d last t0 dur : ℚ)
    (h : t0 - last < d) :
    (DelayedLLM.ainvokeM d last t0 dur true).cancelled = true ∧
    (DelayedLLM.ainvokeM d last t0 dur true).newLast = last ∧
    ((DelayedLLM.ainvokeM d last t0 dur true).trace.all
        fun e => !e.isCallBackend) = true := by
  unfold DelayedLLM.ainvokeM
  simp [h, GateEv.isCallBackend]

/-- Witness for C6 at `d = 2`, stored timestamp 100, clock `100.5`. -/
theorem C6_cancellation_before_dispatch_witness :
    (DelayedLLM.ainvokeM 2 100 (201 / 2) 0 true).cancelled = true ∧
    (DelayedLLM.ainvokeM 2 100 (201 / 2) 0 true).newLast = 100 ∧
    ((DelayedLLM.ainvokeM 2 100 (201 / 2) 0 true).trace.all
        fun e => !e.isCallBackend) = true :=
  C6_cancellation_before_dispatch 2 100 (201 / 2) 0 (by norm_num)


/-- C5 counterexample.  With the primary backend selected and no
`OPEN_ROUTER_API_KEY` in the environment, construction does NOT fail: a
LiteLLM backend client is produced, and it receives `api_key = None` —
refuting "construction fails with a MissingCredential error ... before
any backend client capable of network activity is produced". -/
theorem C5_no_missing_credential_counterexample :
    osEnvEmpty "OPEN_ROUTER_API_KEY" = none ∧
    (DelayedLLM.init 60 true pyDictEmpty osEnvEmpty).llm.isLite = true ∧
    (DelayedLLM.init 60 true pyDictEmpty osEnvEmpty).llm.params "api_key"
      = some PyVal.pynone := by
  refine ⟨rfl, ?_, ?_⟩ <;>
    simp [DelayedLLM.init, ClientSpec.isLite, ClientSpec.params, envVal,
      osEnvEmpty]

/-- C5 (amended): when the credential matching the selected backend is
absent from the environment, construction still succeeds and silently
forwards the absent credential (Python `None`) as the `api_key` of the
backend client it produces, on both provider paths. -/
theorem C5_absent_credential_forwarded (d : ℚ) (kwargs : PyDict)
    (env : OsEnv) (hor : env "OPEN_ROUTER_API_KEY" = none)
    (hgem : env "GEMINI_API_KEY" = none) :
    (DelayedLLM.init d true kwargs env).llm.isLite = true ∧
    (DelayedLLM.init d true kwargs env).llm.params "api_key"
      = some PyVal.pynone ∧
    (DelayedLLM.init d false kwargs env).llm.isLite = false ∧
    (DelayedLLM.init d false kwargs env).llm.params "api_key"
      = some PyVal.pynone := by
  simp [DelayedLLM.init, ClientSpec.isLite, ClientSpec.params, envVal, hor,
    hgem]

/-- Witness for the amended C5 in the empty environment. -/
theorem C5_absent_credential_forwarded_witness :
    (DelayedLLM.init 60 true kwargsUser osEnvEmpty).llm.isLite = true ∧
    (DelayedLLM.init 60 true kwargsUser osEnvEmpty).llm.params "api_key"
      = some PyVal.pynone ∧
    (DelayedLLM.init 60 false kwargsUser osEnvEmpty).llm.isLite = false ∧
    (DelayedLLM.init 60 false kwargsUser osEnvEmpty).llm.params "api_key"
      = some PyVal.pynone :=
  C5_absent_credential_forwarded 60 kwargsUser osEnvEmpty rfl rfl

/-- C7 counterexample.  The key `api_key` is not one of the two
gate-specific keys, yet a bag binding it to a user value is NOT forwarded
unchanged: on the Gemini path the dict-literal merge overrides it with
the environment credential (here absent, so the client receives `None`),
refuting "every other key-value pair in the bag is forwarded unchanged". -/
theorem C7_forwarding_counterexample :
    kwargsUser "api_key" = some (PyVal.s "user-key") ∧
    (DelayedLLM.init 60 false kwargsUser osEnvEmpty).llm.params "api_key"
      = some PyVal.pynone ∧
    some PyVal.pynone ≠ some (PyVal.s "user-key") := by
  refine ⟨rfl, ?_, by decide⟩
  simp [DelayedLLM.init, ClientSpec.params, envVal, osEnvEmpty]

/-- C7 (amended): the two gate-specific keys are never forwarded to the
backend constructor, and every other key is forwarded unchanged EXCEPT
those the constructor itself injects (`base_url`, `custom_llm_provider`
and `api_key` on the primary path; `api_key` on the alternate path),
which the dict-literal merge overrides. -/
theorem C7_parameter_filtering (d : ℚ) (flag : Bool) (kwargs : PyDict)
    (env : OsEnv) (k : String) (hk1 : k ≠ "delay_seconds")
    (hk2 : k ≠ "use_openrouter") (hk3 : k ∉ injectedKeys flag) :
    (DelayedLLM.init d flag kwargs env).llm.params "delay_seconds" = none ∧
    (DelayedLLM.init d flag kwargs env).llm.params "use_openrouter" = none ∧
    (DelayedLLM.init d flag kwargs env).llm.params k = kwargs k := by
  cases flag with
  | false =>
    have hk3a : k ≠ "api_key" := by simpa [injectedKeys] using hk3
    simp [DelayedLLM.init, ClientSpec.params, filteredKwargs, hk1, hk2, hk3a]
  | true =>
    have h3 : ¬ (k = "base_url" ∨ k = "custom_llm_provider" ∨ k = "api_key") := by
      simpa [injectedKeys] using hk3
    push_neg at h3
    obtain ⟨ha, hb, hc⟩ := h3
    simp [DelayedLLM.init, ClientSpec.params, filteredKwargs, hk1, hk2,
      ha, hb, hc]

/-- Witness for the amended C7: the `model` key passes through unchanged
on the primary path while the gate keys do not appear. -/
theorem C7_parameter_filtering_witness :
    ("model" : String) ≠ "delay_seconds" ∧
    (DelayedLLM.init 60 true kwargsUser osEnvEmpty).llm.params
        "delay_seconds" = none ∧
    (DelayedLLM.init 60 true kwargsUser osEnvEmpty).llm.params
        "use_openrouter" = none ∧
    (DelayedLLM.init 60 true kwargsUser osEnvEmpty).llm.params "model"
      = kwargsUser "model" :=
  ⟨by decide,
    C7_parameter_filtering 60 true kwargsUser osEnvEmpty "model" (by decide)
      (by decide) (by decide)⟩

/-- C8: the primary path constructs a `ChatLiteLLM` whose parameters are
the filtered bag merged with the fixed base-URL, the fixed provider tag
and the `OPEN_ROUTER_API_KEY` credential; the alternate path constructs a
`ChatGoogleGenerativeAI` whose parameters are the filtered bag plus only
the `GEMINI_API_KEY` credential — pointwise, at every key. -/
theorem C8_backend_construction (d : ℚ) (kwargs : PyDict) (env : OsEnv)
    (k : String) :
    (DelayedLLM.init d true kwargs env).llm.isLite = true ∧
    (DelayedLLM.init d true kwargs env).llm.params k
      = primaryParamsSpec kwargs env k ∧
    (DelayedLLM.init d false kwargs env).llm.isLite = false ∧
    (DelayedLLM.init d false kwargs env).llm.params k
      = alternateParamsSpec kwargs env k := by
  refine ⟨by simp [DelayedLLM.init, ClientSpec.isLite], ?_,
    by simp [DelayedLLM.init, ClientSpec.isLite], ?_⟩
  · by_cases h1 : k = "api_key"
    · subst h1
      simp [DelayedLLM.init, ClientSpec.params, primaryParamsSpec,
        specDictInsert]
    · by_cases h2 : k = "custom_llm_provider"
      · subst h2
        simp [DelayedLLM.init, ClientSpec.params, primaryParamsSpec,
          specDictInsert]
      · by_cases h3 : k = "base_url"
        · subst h3
          simp [DelayedLLM.init, ClientSpec.params, primaryParamsSpec,
            specDictInsert]
        · simp [DelayedLLM.init, ClientSpec.params, primaryParamsSpec,
            specDictInsert, h1, h2, h3]
  · by_cases h1 : k = "api_key"
    · subst h1
      simp [DelayedLLM.init, ClientSpec.params, alternateParamsSpec,
        specDictInsert]
    · simp [DelayedLLM.init, ClientSpec.params, alternateParamsSpec,
        specDictInsert, h1]

/-- C2 counterexample.  Three concurrent callers against a fresh gate
with `d = 2 > 0`, scheduled as in `gateRaceSchedule`: callers 1 and 2 both
run their (individually indivisible) read-compute step before either has
committed a timestamp, so both pick wake instant `102` and both dispatch
there — the dispatch list `[100, 102, 102]` has two dispatches `0 < d`
apart, refuting the claimed minimum spacing. -/
theorem C2_concurrent_race_counterexample :
    (gateRun 2 0 gateSysInit gateRaceSchedule).map GateSys.dispatches
      = some [100, 102, 102] ∧
    ¬ dispatchesSpaced 2 [100, 102, 102] ∧ (0 : ℚ) < 2 := by
  refine ⟨?_, by norm_num [dispatchesSpaced], by norm_num⟩
  norm_num [gateRun, gateStep, GateSys.setPh, gateSysInit, gateRaceSchedule,
    Fin.ext_iff]

/-- C2 (amended): the minimum spacing DOES hold when the critical
sections of the callers are serialized: if the read-compute step of the
second caller runs only after the timestamp commit of the first, the two
dispatches are at least `d` apart. -/
theorem C2_serialized_dispatch_gap (d l0 t1 t2 : ℚ) (h0 : 0 ≤ t1)
    (h1 : l0 + d ≤ t1) (h2 : t1 ≤ t2) (h3 : t2 - t1 < d) :
    (gateRun d 0 { last := l0, ph := fun _ => GatePhase.ready, dispatches := [] }
        [(GateAct.compute 0, t1), (GateAct.compute 1, t2),
         (GateAct.wake 1, t1 + d)]).map GateSys.dispatches
      = some [t1, t1 + d] ∧
    dispatchesSpaced d [t1, t1 + d] := by
  have hn1 : ¬ (t1 - l0 < d) := by linarith
  have hle : t2 ≤ t1 + d := by linarith
  have hw : t2 + (d - (t2 - t1)) ≤ t1 + d := by linarith
  constructor
  · simp [gateRun, gateStep, GateSys.setPh, Fin.ext_iff, h0, hn1, h2, h3,
      hle, hw]
  · simp [dispatchesSpaced]

/-- Witness for the amended C2 at `d = 2`, `l0 = 0`, first caller
computing at `t = 100`, second at `t = 100.5`. -/
theorem C2_serialized_dispatch_gap_witness :
    (gateRun 2 0 { last := 0, ph := fun _ => GatePhase.ready, dispatches := [] }
        [(GateAct.compute 0, 100), (GateAct.compute 1, 201 / 2),
         (GateAct.wake 1, 100 + 2)]).map GateSys.dispatches
      = some [100, 100 + 2] ∧
    dispatchesSpaced 2 [100, 100 + 2] :=
  C2_serialized_dispatch_gap 2 0 100 (201 / 2) (by norm_num) (by norm_num)
    (by norm_num) (by norm_num)

/-- C10: each `Configuration` field resolves to the environment variable
named by the upper-cased field name when set, else to the (non-`None`)
entry of the `configurable` mapping when present, else to the declared
default; a resolved `None` is dropped so the default applies. -/
theorem C10_config_resolution (env : OsEnv) (config : Option PyDict)
    (name : String) (hname : name ∈ Configuration.fieldNames) :
    (∀ s, env (pyUpper name) = some s →
        Configuration.from_runnable_config env config name
          = some (PyVal.s s)) ∧
    (env (pyUpper name) = none → ∀ v, configurableOf config name = some v →
        v ≠ PyVal.pynone →
        Configuration.from_runnable_config env config name = some v) ∧
    (env (pyUpper name) = none →
        (configurableOf config name = none ∨
          configurableOf config name = some PyVal.pynone) →
        Configuration.from_runnable_config env config name
          = Configuration.defaults name) := by
  unfold Configuration.from_runnable_config
  refine ⟨?_, ?_, ?_⟩
  · intro s hs
    simp [hname, hs]
  · intro he v hv hne
    cases v <;> simp_all
  · intro he hc
    rcases hc with hc | hc <;> simp [hname, he, hc]

/-- Witness for C10: the environment override wins for
`coordinator_model`. -/
theorem C10_config_resolution_witness :
    Configuration.from_runnable_config envCoordinator none
        "coordinator_model" = some (PyVal.s "override/model") :=
  (C10_config_resolution envCoordinator none "coordinator_model"
      (by decide)).1 "override/model" (by decide)
